import Mathlib

/-!
# RedisDesktopManager: main window handlers (`dialogs/application.cpp`)

A shallow embedding of the slots of `MainWin`.  The window state that the
handlers read back is kept in a record (`MainWin`); every call a handler makes
on a collaborator (tree view, connections manager, message boxes, status bar,
tab widget, server and database items) is appended, in program order, to a
trace of `Effect`s.  Values that come back from collaborators (the cursor
position, the result of `loadKeys()`, the chosen file name, ...) are read from
an `Env` record, so each handler is a total, executable function
`Env → MainWin → input → MainWin × List Effect`.
-/

namespace RDM

/-! ## Data model -/

/-- Qt `QPoint`: a pair of integer coordinates. -/
structure QPoint where
  xp : Int
  yp : Int
deriving DecidableEq, Repr

/-- Qt `QPoint::isNull()`: both coordinates are zero. -/
def QPoint.isNull (p : QPoint) : Bool := p.xp == 0 && p.yp == 0

/-- A `RedisServerItem` as the handlers see it: its `text()` and `isLocked()`. -/
structure RedisServerItem where
  text : String
  locked : Bool
deriving DecidableEq, Repr

/-- Accessor `RedisServerItem::isLocked()`. -/
def RedisServerItem.isLocked (s : RedisServerItem) : Bool := s.locked

/-- A `RedisServerDbItem`, identified by its server and database index. -/
structure RedisServerDbItem where
  server : String
  dbIndex : Nat
deriving DecidableEq, Repr

/-- A `RedisKeyItem`: its name and the `QStandardItem` enabled flag. -/
structure RedisKeyItem where
  name : String
  enabled : Bool
deriving DecidableEq, Repr

/-- A `QStandardItem` of the connections tree together with its runtime
`type()` tag.  The three `TYPE` constants are distinct `case` labels of one
`switch`; `other` covers every further tag value. -/
inductive Item where
  | server (s : RedisServerItem)
  | db (d : RedisServerDbItem)
  | key (k : RedisKeyItem)
  | other (typeTag : Int)
deriving DecidableEq, Repr

/-- A `QModelIndex` of the connections model, with the item that
`connections->itemFromIndex` yields for it: `none` is the invalid index (for
which `itemFromIndex` gives a null pointer), `some it` a valid index. -/
abbrev QModelIndex := Option Item

/-- Qt `QModelIndex::isValid()`. -/
def QModelIndex.isValid (index : QModelIndex) : Bool := index.isSome

/-- The widget built by `new serverInfoViewTab(server->text(), info)`. -/
structure ServerInfoViewTab where
  serverName : String
  info : List String
deriving DecidableEq, Repr

/-- One observable call made by a handler, in the order of the source. -/
inductive Effect where
  /-- Diagnostic output `qDebug() << ...`. -/
  | debug (msg : String)
  /-- Call `server->loadDatabaseList()`. -/
  | loadDatabaseList (s : RedisServerItem)
  /-- Call `db->loadKeys()`. -/
  | loadKeys (d : RedisServerDbItem)
  /-- Call `ui.serversTreeView->setExpanded(index, flag)`. -/
  | setExpanded (index : QModelIndex) (flag : Bool)
  /-- Call `performanceTimer.start()`. -/
  | timerStart
  /-- Call `performanceTimer.invalidate()`. -/
  | timerInvalidate
  /-- Call `connections->blockSignals(flag)`. -/
  | blockSignals (flag : Bool)
  /-- Call `ui.serversTreeView->doItemsLayout()`. -/
  | doItemsLayout
  /-- Call `statusBar()->showMessage(msg)`. -/
  | showMessage (msg : String)
  /-- Call `ui.tabWidget->openKeyTab(key)` (`inNewTab = none`, the argument is
  left to its default) or `openKeyTab(key, flag)` (`inNewTab = some flag`). -/
  | openKeyTab (k : RedisKeyItem) (inNewTab : Option Bool)
  /-- Call `QMessageBox::warning(parent, title, text)`. -/
  | warning (title : String) (text : String)
  /-- Call `QMessageBox::information(parent, title, text)`. -/
  | information (title : String) (text : String)
  /-- Call `QMessageBox::question(parent, title, text, Yes|No)`. -/
  | question (title : String) (text : String)
  /-- Call `serverMenu->exec(pos)`. -/
  | execServerMenu (pos : QPoint)
  /-- Call `keyMenu->exec(pos)`. -/
  | execKeyMenu (pos : QPoint)
  /-- Call `server->reload()`. -/
  | reload (s : RedisServerItem)
  /-- Call `server->unload()`. -/
  | unload (s : RedisServerItem)
  /-- Call `connections->RemoveConnection(server)`. -/
  | removeConnection (s : RedisServerItem)
  /-- Run the edit dialog: `ConnectionWindow(this, server)` then `exec()`. -/
  | execConnectionWindow (s : RedisServerItem)
  /-- Call `server->getInfo()`. -/
  | getInfo (s : RedisServerItem)
  /-- Call `ui.tabWidget->addTab(title, tab, icon)`. -/
  | addTab (title : String) (tab : ServerInfoViewTab) (icon : String)
  /-- Call `QFileDialog::getOpenFileName(this, caption, "", filter)`. -/
  | getOpenFileName (caption : String)
  /-- Call `QFileDialog::getSaveFileName(this, caption, "", filter)`. -/
  | getSaveFileName (caption : String)
  /-- Call `connections->ImportConnections(fileName)`. -/
  | importConnections (fileName : String)
  /-- Call `connections->SaveConnectionsConfigToFile(fileName)`. -/
  | saveConnectionsConfigToFile (fileName : String)
  /-- Call `connections->setFilter(QRegExp(pattern))`. -/
  | setFilter (pattern : String)
  /-- Call `ui.leKeySearchPattern->setStyleSheet(css)`. -/
  | setStyleSheet (css : String)
  /-- Call `ui.pbClearFilter->setEnabled(flag)`. -/
  | setClearFilterEnabled (flag : Bool)
deriving DecidableEq, Repr

/-- Whether an effect is `qDebug()` output rather than a call on the UI or on
a collaborator. -/
def Effect.isDebug : Effect → Bool
  | .debug _ => true
  | _ => false

/-- The trace without its `qDebug()` lines. -/
def uiEffects (t : List Effect) : List Effect := t.filter (fun e => !e.isDebug)

/-- Whether an effect is a message box of kind warning. -/
def Effect.isWarning : Effect → Bool
  | .warning _ _ => true
  | _ => false

/-- Whether an effect is a message box of kind information. -/
def Effect.isInformation : Effect → Bool
  | .information _ _ => true
  | _ => false

/-- Whether an effect is a message box of any kind. -/
def Effect.isMessageBox : Effect → Bool
  | .warning _ _ => true
  | .information _ _ => true
  | .question _ _ => true
  | _ => false

/-- Whether an effect is a context menu being executed. -/
def Effect.isMenu : Effect → Bool
  | .execServerMenu _ => true
  | .execKeyMenu _ => true
  | _ => false

/-- Whether an effect is an `openKeyTab` call. -/
def Effect.isOpenKeyTab : Effect → Bool
  | .openKeyTab _ _ => true
  | _ => false

/-- Whether an effect is a `statusBar()->showMessage` call. -/
def Effect.isShowMessage : Effect → Bool
  | .showMessage _ => true
  | _ => false

/-- Whether an effect is a `setExpanded` call. -/
def Effect.isSetExpanded : Effect → Bool
  | .setExpanded _ _ => true
  | _ => false

/-- Whether an effect is a call that asks a tree item to load: one of
`loadDatabaseList()` and `loadKeys()`. -/
def Effect.isLoad : Effect → Bool
  | .loadDatabaseList _ => true
  | .loadKeys _ => true
  | _ => false

/-- Whether an effect is an `addTab` call. -/
def Effect.isAddTab : Effect → Bool
  | .addTab _ _ _ => true
  | _ => false

/-- Whether an effect is a `setFilter` call. -/
def Effect.isSetFilter : Effect → Bool
  | .setFilter _ => true
  | _ => false

/-- Whether an effect is a call of `ImportConnections` or of
`SaveConnectionsConfigToFile`. -/
def Effect.isRegistryFileOp : Effect → Bool
  | .importConnections _ => true
  | .saveConnectionsConfigToFile _ => true
  | _ => false

/-- The part of the main window (and of the models and widgets it owns) that
the handlers read back. -/
structure MainWin where
  /-- Member `m_treeViewUILocked`. -/
  m_treeViewUILocked : Bool
  /-- Value of `connections->signalsBlocked()`. -/
  signalsBlocked : Bool
  /-- Value of `performanceTimer.isValid()`. -/
  timerValid : Bool
  /-- Value of `ui.pbClearFilter->isEnabled()`. -/
  clearFilterEnabled : Bool
  /-- The filter held by the connections manager (`none`: no filter). -/
  activeFilter : Option String
deriving DecidableEq, Repr

/-- What collaborators answer when a handler calls them. -/
structure Env where
  /-- Value of `QCursor::pos()`. -/
  cursorPos : QPoint
  /-- Value of `connections->itemFromIndex(ui.serversTreeView->indexAt(p))`;
  `none` is the null pointer. -/
  itemAt : QPoint → Option Item
  /-- Whether `serverMenu->exec` returns a non-null action. -/
  serverMenuAction : Bool
  /-- Value returned by `db->loadKeys()`. -/
  loadKeys : RedisServerDbItem → Bool
  /-- Whether `server->reload()` throws `std::bad_cast`. -/
  reloadThrowsBadCast : RedisServerItem → Bool
  /-- Value returned by `server->getInfo()`. -/
  getInfo : RedisServerItem → List String
  /-- Whether the confirmation box answers `QMessageBox::Yes`. -/
  replyYes : Bool
  /-- File name returned by `QFileDialog::getOpenFileName`. -/
  openFileName : String
  /-- File name returned by `QFileDialog::getSaveFileName`. -/
  saveFileName : String
  /-- Value returned by `connections->ImportConnections(fileName)`. -/
  importResult : String → Bool
  /-- Value returned by `connections->SaveConnectionsConfigToFile(fileName)`. -/
  saveResult : String → Bool
  /-- Text of `ui.leKeySearchPattern`. -/
  patternText : String
  /-- Value of `QRegExp(pattern).isValid()`. -/
  regExpValid : String → Bool
  /-- Value of `performanceTimer.elapsed()`, in milliseconds. -/
  elapsed : Int

/-- Modelled from the spec: `RedisConnectionsManager::setFilter` is not in this
file; section 4.5 says an accepted filter is stored as the active filter. -/
def setFilter (w : MainWin) (pattern : String) : MainWin :=
  { w with activeFilter := some pattern }

/-! ## Handlers -/

/-- Source `MainWin::lockUi`. -/
def lockUi (w : MainWin) : MainWin × List Effect :=
  ({ w with m_treeViewUILocked := true }, [Effect.debug "ui locked"])

/-- Source `MainWin::isUiLocked`. -/
def isUiLocked (w : MainWin) : Bool := w.m_treeViewUILocked

/-- Source `MainWin::UnlockUi`. -/
def UnlockUi (env : Env) (w : MainWin) : MainWin × List Effect :=
  let w1 : MainWin := { w with m_treeViewUILocked := false }
  let t1 : List Effect := [Effect.debug "ui unlocked"]
  let r2 : MainWin × List Effect :=
    if w1.signalsBlocked then
      ({ w1 with signalsBlocked := false }, t1 ++ [Effect.blockSignals false, Effect.doItemsLayout])
    else (w1, t1)
  if r2.1.timerValid then
    ({ r2.1 with timerValid := false },
      r2.2 ++ [Effect.showMessage ("Keys loaded in: " ++ toString env.elapsed ++ " ms"),
               Effect.timerInvalidate])
  else r2

/-- Source `MainWin::OnConnectionTreeClick`. -/
def OnConnectionTreeClick (env : Env) (w : MainWin) (index : QModelIndex) :
    MainWin × List Effect :=
  if isUiLocked w || !index.isValid then
    (w, [Effect.debug ("UI Locked " ++ toString (isUiLocked w))])
  else
    match index with
    | none => (w, [])
    | some (Item.server server) =>
      (w, [Effect.loadDatabaseList server, Effect.setExpanded index true])
    | some (Item.db db) =>
      if env.loadKeys db then
        ({ w with timerValid := true, signalsBlocked := true },
          [Effect.loadKeys db, Effect.timerStart, Effect.blockSignals true,
           Effect.showMessage "Loading keys ...", Effect.setExpanded index true])
      else (w, [Effect.loadKeys db])
    | some (Item.key k) =>
      if k.enabled then (w, [Effect.openKeyTab k none]) else (w, [])
    | some (Item.other _) => (w, [])

/-- Source `MainWin::OnConnectionTreeWheelClick`. -/
def OnConnectionTreeWheelClick (_env : Env) (w : MainWin) (index : QModelIndex) :
    MainWin × List Effect :=
  if !index.isValid then (w, [])
  else
    match index with
    | some (Item.key k) => (w, [Effect.openKeyTab k (some true)])
    | _ => (w, [])

/-- Source `MainWin::OnTreeViewContextMenu`. -/
def OnTreeViewContextMenu (env : Env) (w : MainWin) (point : QPoint) :
    MainWin × List Effect :=
  if point.isNull then (w, [])
  else
    let item := env.itemAt point
    let currentPoint := env.cursorPos
    if item.isNone || currentPoint.isNull || isUiLocked w then (w, [])
    else
      match item with
      | some (Item.server server) =>
        if server.isLocked then
          (w, [Effect.warning "Warning" "Performing operations. Please Keep patience."])
        else
          if env.serverMenuAction then (w, [Effect.execServerMenu currentPoint])
          else (w, [Effect.execServerMenu currentPoint])
      | some (Item.key _) => (w, [Effect.execKeyMenu currentPoint])
      | _ => (w, [])

/-- Source `MainWin::OnReloadServerInTree`; `sel` is the value of
`getSelectedItem(RedisServerItem::TYPE)` after the cast to a server item.
Exceptions of `reload()` other than `std::bad_cast` leave the handler and are
not modelled. -/
def OnReloadServerInTree (env : Env) (w : MainWin) (sel : Option RedisServerItem) :
    MainWin × List Effect :=
  match sel with
  | none => (w, [])
  | some server =>
    let r1 := lockUi w
    if env.reloadThrowsBadCast server then
      (r1.1, r1.2 ++ [Effect.reload server,
                      Effect.warning "Error" "Error occurred on reloading connection"])
    else (r1.1, r1.2 ++ [Effect.reload server])

/-- Source `MainWin::OnDisconnectFromServer`. -/
def OnDisconnectFromServer (_env : Env) (w : MainWin) (sel : Option RedisServerItem) :
    MainWin × List Effect :=
  match sel with
  | none => (w, [])
  | some server => (w, [Effect.unload server])

/-- Source `MainWin::OnRemoveConnectionFromTree`. -/
def OnRemoveConnectionFromTree (env : Env) (w : MainWin) (sel : Option RedisServerItem) :
    MainWin × List Effect :=
  match sel with
  | none => (w, [])
  | some server =>
    let t1 : List Effect :=
      [Effect.question "Confirm action" "Do you really want delete connection?"]
    if env.replyYes then
      let r2 := UnlockUi env w
      (r2.1, t1 ++ [Effect.removeConnection server] ++ r2.2)
    else (w, t1)

/-- Source `MainWin::OnEditConnection`. -/
def OnEditConnection (env : Env) (w : MainWin) (sel : Option RedisServerItem) :
    MainWin × List Effect :=
  match sel with
  | none => (w, [])
  | some server =>
    let r1 := UnlockUi env w
    (r1.1, [Effect.unload server] ++ r1.2 ++ [Effect.execConnectionWindow server])

/-- Source `MainWin::OnImportConnectionsClick`. -/
def OnImportConnectionsClick (env : Env) (w : MainWin) : MainWin × List Effect :=
  let fileName := env.openFileName
  let t1 : List Effect := [Effect.getOpenFileName "Import Connections"]
  if fileName.isEmpty then (w, t1)
  else if env.importResult fileName then
    (w, t1 ++ [Effect.importConnections fileName,
               Effect.information "Connections imported"
                 "Connections imported from connections file"])
  else
    (w, t1 ++ [Effect.importConnections fileName,
               Effect.warning "Can't import connections" "Select valid file for import"])

/-- Source `MainWin::OnExportConnectionsClick`. -/
def OnExportConnectionsClick (env : Env) (w : MainWin) : MainWin × List Effect :=
  let fileName := env.saveFileName
  let t1 : List Effect := [Effect.getSaveFileName "Export Connections to xml"]
  if fileName.isEmpty then (w, t1)
  else if env.saveResult fileName then
    (w, t1 ++ [Effect.saveConnectionsConfigToFile fileName,
               Effect.information "Connections exported"
                 "Connections exported in selected file"])
  else
    (w, t1 ++ [Effect.saveConnectionsConfigToFile fileName,
               Effect.warning "Can't export connections"
                 "Select valid file name for export"])

/-- Source `MainWin::OnSetFilter`.  `QRegExp::isEmpty()` is true exactly for the
empty pattern string. -/
def OnSetFilter (env : Env) (w : MainWin) : MainWin × List Effect :=
  let pattern := env.patternText
  if pattern.isEmpty || !env.regExpValid pattern then
    (w, [Effect.setStyleSheet "border: 2px dashed red;"])
  else
    let w1 : MainWin := { w with timerValid := true }
    let w2 := setFilter w1 pattern
    ({ w2 with clearFilterEnabled := true },
      [Effect.timerStart, Effect.setFilter pattern,
       Effect.setStyleSheet "border: 1px solid green; background-color: #FFFF99;",
       Effect.setClearFilterEnabled true])

/-- Source `MainWin::OnServerInfoOpen`. -/
def OnServerInfoOpen (env : Env) (w : MainWin) (sel : Option RedisServerItem) :
    MainWin × List Effect :=
  match sel with
  | none => (w, [])
  | some server =>
    let info := env.getInfo server
    if info.isEmpty then (w, [Effect.getInfo server])
    else
      let tab : ServerInfoViewTab := { serverName := server.text, info := info }
      let serverName := "Info: " ++ server.text
      (w, [Effect.getInfo server, Effect.addTab serverName tab ":/images/serverinfo.png"])

/-- Source `MainWin::OnKeyOpenInNewTab`; `sel` is the value of
`getSelectedItem()`, `none` for the null pointer. -/
def OnKeyOpenInNewTab (_env : Env) (w : MainWin) (sel : Option Item) :
    MainWin × List Effect :=
  match sel with
  | some (Item.key k) => (w, [Effect.openKeyTab k (some true)])
  | _ => (w, [])

/-! ## Sample inputs -/

/-- A server item whose lock flag is clear. -/
def sampleServer : RedisServerItem := { text := "local", locked := false }

/-- A server item whose lock flag is set. -/
def lockedServer : RedisServerItem := { text := "local", locked := true }

/-- A database item. -/
def sampleDb : RedisServerDbItem := { server := "local", dbIndex := 0 }

/-- A key item that can be opened. -/
def enabledKey : RedisKeyItem := { name := "user:1", enabled := true }

/-- A key item whose enabled flag is false. -/
def disabledKey : RedisKeyItem := { name := "blob", enabled := false }

/-- A freshly constructed window: unlocked, signals delivered, timer invalid. -/
def freshWin : MainWin :=
  { m_treeViewUILocked := false, signalsBlocked := false, timerValid := false,
    clearFilterEnabled := false, activeFilter := none }

/-- A window in the middle of a key load: locked, signals blocked, timer running. -/
def busyWin : MainWin :=
  { m_treeViewUILocked := true, signalsBlocked := true, timerValid := true,
    clearFilterEnabled := false, activeFilter := none }

/-- Collaborators that succeed: the cursor is away from the origin, every item
under the pointer is the unlocked sample server, loads start, files are
chosen and written, the pattern is valid. -/
def sampleEnv : Env :=
  { cursorPos := { xp := 40, yp := 25 }
    itemAt := fun _ => some (Item.server sampleServer)
    serverMenuAction := false
    loadKeys := fun _ => true
    reloadThrowsBadCast := fun _ => false
    getInfo := fun _ => ["redis_version:2.8.4"]
    replyYes := true
    openFileName := "in.xml"
    saveFileName := "out.xml"
    importResult := fun _ => true
    saveResult := fun _ => true
    patternText := "user:*"
    regExpValid := fun _ => true
    elapsed := 12 }

/-- Collaborators that fail: the pointer is on the locked server, `loadKeys`
starts nothing, `reload` throws, `getInfo` is empty, file operations fail,
the pattern is malformed. -/
def failingEnv : Env :=
  { cursorPos := { xp := 40, yp := 25 }
    itemAt := fun _ => some (Item.server lockedServer)
    serverMenuAction := false
    loadKeys := fun _ => false
    reloadThrowsBadCast := fun _ => true
    getInfo := fun _ => []
    replyYes := true
    openFileName := "in.xml"
    saveFileName := "out.xml"
    importResult := fun _ => false
    saveResult := fun _ => false
    patternText := "[a-"
    regExpValid := fun _ => false
    elapsed := 12 }

/-- The collaborators of `failingEnv`, with the cursor at the screen origin. -/
def originCursorEnv : Env := { failingEnv with cursorPos := { xp := 0, yp := 0 } }

/-- The collaborators of `sampleEnv`, with the cursor at the screen origin. -/
def originCursorOkEnv : Env := { sampleEnv with cursorPos := { xp := 0, yp := 0 } }

/-- The collaborators of `sampleEnv`, with a user who declines the confirmation box. -/
def decliningEnv : Env := { sampleEnv with replyYes := false }

/-! ## Shared lemmas -/

/-- The context menu handler on a server item, when none of its guards fires:
a locked server gets the warning and nothing else, an unlocked one gets the
server menu at the cursor position and nothing else. -/
theorem contextMenu_server_unguarded (env : Env) (w : MainWin) (point : QPoint)
    (server : RedisServerItem) (hPoint : point.isNull = false)
    (hItem : env.itemAt point = some (Item.server server))
    (hCursor : env.cursorPos.isNull = false) (hUnlocked : w.m_treeViewUILocked = false) :
    OnTreeViewContextMenu env w point =
      (w, if server.isLocked then
            [Effect.warning "Warning" "Performing operations. Please Keep patience."]
          else [Effect.execServerMenu env.cursorPos]) := by
  unfold OnTreeViewContextMenu
  cases hl : server.isLocked <;> cases ha : env.serverMenuAction <;>
    simp [hPoint, hItem, hCursor, hUnlocked, isUiLocked, hl, ha]

/-- The context menu handler makes no call when the cursor position is null. -/
theorem contextMenu_null_cursor (env : Env) (w : MainWin) (point : QPoint)
    (hCursor : env.cursorPos.isNull = true) :
    OnTreeViewContextMenu env w point = (w, []) := by
  unfold OnTreeViewContextMenu
  cases hp : point.isNull <;> simp [hCursor]

/-! ## Theorems -/

/-- C5: a click with a valid index on a database item, UI not locked, calls
`loadKeys()` once; the timer start, the signal block, the status text
"Loading keys ..." and the expansion of the node each happen if and only if
`loadKeys()` returned true, and when it returned false the window state is
unchanged and the trace holds the `loadKeys()` call alone. -/
theorem C5_db_click_loading_iff_loadKeys (env : Env) (w : MainWin) (db : RedisServerDbItem)
    (hUnlocked : w.m_treeViewUILocked = false) :
    (Effect.timerStart ∈ (OnConnectionTreeClick env w (some (Item.db db))).2
        ↔ env.loadKeys db = true) ∧
    (Effect.blockSignals true ∈ (OnConnectionTreeClick env w (some (Item.db db))).2
        ↔ env.loadKeys db = true) ∧
    (Effect.showMessage "Loading keys ..." ∈ (OnConnectionTreeClick env w (some (Item.db db))).2
        ↔ env.loadKeys db = true) ∧
    (Effect.setExpanded (some (Item.db db)) true
        ∈ (OnConnectionTreeClick env w (some (Item.db db))).2
        ↔ env.loadKeys db = true) ∧
    (env.loadKeys db = true →
      OnConnectionTreeClick env w (some (Item.db db)) =
        ({ w with timerValid := true, signalsBlocked := true },
          [Effect.loadKeys db, Effect.timerStart, Effect.blockSignals true,
           Effect.showMessage "Loading keys ...",
           Effect.setExpanded (some (Item.db db)) true])) ∧
    (env.loadKeys db = false →
      (OnConnectionTreeClick env w (some (Item.db db))).1 = w ∧
      (OnConnectionTreeClick env w (some (Item.db db))).2 = [Effect.loadKeys db] ∧
      (OnConnectionTreeClick env w (some (Item.db db))).2.countP Effect.isShowMessage = 0 ∧
      (OnConnectionTreeClick env w (some (Item.db db))).2.countP Effect.isSetExpanded = 0) := by
  cases hk : env.loadKeys db <;>
    simp [OnConnectionTreeClick, isUiLocked, QModelIndex.isValid, hUnlocked, hk,
      Effect.isShowMessage, Effect.isSetExpanded]

/-- C5 at sample inputs: a fresh window, once with a load that starts and once
with one that does not. -/
theorem C5_db_click_loading_iff_loadKeys_witness :
    freshWin.m_treeViewUILocked = false ∧
    (Effect.timerStart ∈ (OnConnectionTreeClick sampleEnv freshWin (some (Item.db sampleDb))).2
        ↔ sampleEnv.loadKeys sampleDb = true) ∧
    (failingEnv.loadKeys sampleDb = false →
      (OnConnectionTreeClick failingEnv freshWin (some (Item.db sampleDb))).1 = freshWin) :=
  ⟨rfl,
   (C5_db_click_loading_iff_loadKeys sampleEnv freshWin sampleDb rfl).1,
   fun h => ((C5_db_click_loading_iff_loadKeys failingEnv freshWin sampleDb rfl).2.2.2.2.2 h).1⟩

/-- C6: from every state one `UnlockUi` leaves the UI unlocked, the signals
unblocked and the timer invalid; its calls are, in this order, one
`blockSignals(false)` with one `doItemsLayout()` when signals were blocked
(none otherwise) and one "Keys loaded in: N ms" status with the timer
invalidation when the timer was valid (none otherwise).  `lockUi` on a locked
state changes nothing, one `UnlockUi` after `n + 1` calls of `lockUi` ends in
the same state as after one, and a second `UnlockUi` leaves the state as it is
and makes no call (`qDebug()` lines, which both functions always print, are not
counted as calls). -/
theorem C6_UnlockUi_ends_region_no_stacking (env env2 : Env) (w : MainWin) (n : Nat) :
    (UnlockUi env w).1.m_treeViewUILocked = false ∧
    (UnlockUi env w).1.signalsBlocked = false ∧
    (UnlockUi env w).1.timerValid = false ∧
    uiEffects (UnlockUi env w).2 =
      (if w.signalsBlocked then [Effect.blockSignals false, Effect.doItemsLayout] else []) ++
      (if w.timerValid then
        [Effect.showMessage ("Keys loaded in: " ++ toString env.elapsed ++ " ms"),
         Effect.timerInvalidate]
       else []) ∧
    (UnlockUi env w).2.count Effect.doItemsLayout = (if w.signalsBlocked then 1 else 0) ∧
    (UnlockUi env w).2.countP Effect.isShowMessage = (if w.timerValid then 1 else 0) ∧
    (w.m_treeViewUILocked = true → (lockUi w).1 = w) ∧
    (UnlockUi env ((fun v => (lockUi v).1)^[n + 1] w)).1 = (UnlockUi env (lockUi w).1).1 ∧
    (UnlockUi env ((fun v => (lockUi v).1)^[n + 1] w)).1.m_treeViewUILocked = false ∧
    (UnlockUi env2 (UnlockUi env w).1).1 = (UnlockUi env w).1 ∧
    uiEffects (UnlockUi env2 (UnlockUi env w).1).2 = [] := by
  have hIter : ∀ (k : Nat) (v : MainWin),
      (fun u => (lockUi u).1)^[k + 1] v = (lockUi v).1 := by
    intro k
    induction k with
    | zero => intro v; rfl
    | succ k ih =>
      intro v
      rw [Function.iterate_succ_apply, ih]
      rfl
  rw [hIter n w]
  obtain ⟨l, b, t, c, f⟩ := w
  cases l <;> cases b <;> cases t <;>
    simp [UnlockUi, lockUi, uiEffects, Effect.isDebug, Effect.isShowMessage]

/-- C6 at a sample input: on the window in the middle of a key load, which is
locked, `lockUi` changes nothing, and one `UnlockUi` after three `lockUi`
calls unlocks. -/
theorem C6_UnlockUi_ends_region_no_stacking_witness :
    busyWin.m_treeViewUILocked = true ∧ (lockUi busyWin).1 = busyWin ∧
    (UnlockUi sampleEnv ((fun v => (lockUi v).1)^[2 + 1] freshWin)).1.m_treeViewUILocked
      = false :=
  ⟨rfl,
   (C6_UnlockUi_ends_region_no_stacking sampleEnv sampleEnv busyWin 0).2.2.2.2.2.2.1 rfl,
   (C6_UnlockUi_ends_region_no_stacking sampleEnv sampleEnv freshWin 2).2.2.2.2.2.2.2.2.1⟩

/-- C7: `OnSetFilter` calls `connections->setFilter` if and only if the pattern
text is non-empty and a valid expression.  A rejected pattern leaves the
window state (active filter, timer, clear-filter button) unchanged and the only
call is the red style sheet; an accepted one starts the timer, calls
`setFilter` exactly once, with that pattern, and enables the clear-filter
button. -/
theorem C7_OnSetFilter_accepts_iff_nonempty_valid (env : Env) (w : MainWin) :
    ((OnSetFilter env w).2.countP Effect.isSetFilter = 1
        ↔ (env.patternText.isEmpty = false ∧ env.regExpValid env.patternText = true)) ∧
    (Effect.setFilter env.patternText ∈ (OnSetFilter env w).2
        ↔ (env.patternText.isEmpty = false ∧ env.regExpValid env.patternText = true)) ∧
    ((env.patternText.isEmpty = true ∨ env.regExpValid env.patternText = false) →
      (OnSetFilter env w).1 = w ∧
      (OnSetFilter env w).2 = [Effect.setStyleSheet "border: 2px dashed red;"] ∧
      (OnSetFilter env w).2.countP Effect.isSetFilter = 0 ∧
      Effect.timerStart ∉ (OnSetFilter env w).2) ∧
    ((env.patternText.isEmpty = false ∧ env.regExpValid env.patternText = true) →
      (OnSetFilter env w).2.count (Effect.setFilter env.patternText) = 1 ∧
      (OnSetFilter env w).2.count Effect.timerStart = 1 ∧
      Effect.setClearFilterEnabled true ∈ (OnSetFilter env w).2 ∧
      (OnSetFilter env w).1 =
        { w with timerValid := true, activeFilter := some env.patternText,
                 clearFilterEnabled := true }) := by
  cases he : env.patternText.isEmpty <;> cases hv : env.regExpValid env.patternText <;>
    simp [OnSetFilter, setFilter, he, hv, Effect.isSetFilter]

/-- C7 at sample inputs: the malformed pattern is rejected, the valid one is
passed on. -/
theorem C7_OnSetFilter_accepts_iff_nonempty_valid_witness :
    (failingEnv.patternText.isEmpty = true ∨
      failingEnv.regExpValid failingEnv.patternText = false) ∧
    (OnSetFilter failingEnv freshWin).1 = freshWin ∧
    (sampleEnv.patternText.isEmpty = false ∧
      sampleEnv.regExpValid sampleEnv.patternText = true) ∧
    (OnSetFilter sampleEnv freshWin).2.count (Effect.setFilter sampleEnv.patternText) = 1 :=
  ⟨Or.inr rfl,
   ((C7_OnSetFilter_accepts_iff_nonempty_valid failingEnv freshWin).2.2.1 (Or.inr rfl)).1,
   ⟨by decide, rfl⟩,
   ((C7_OnSetFilter_accepts_iff_nonempty_valid sampleEnv freshWin).2.2.2
      ⟨by decide, rfl⟩).1⟩

/-- C8: with a server item selected, `OnServerInfoOpen` calls `getInfo()` once
and adds a tab if and only if the list that came back is non-empty; the tab is
titled "Info: " followed by the server text and carries that list.  An empty
list adds no tab and shows no message box; with no server item selected
nothing is called at all, `getInfo()` included.  The window state is never
changed. -/
theorem C8_OnServerInfoOpen_tab_iff_info_nonempty (env : Env) (w : MainWin)
    (server : RedisServerItem) :
    ((OnServerInfoOpen env w (some server)).2.countP Effect.isAddTab = 1
        ↔ env.getInfo server ≠ []) ∧
    (env.getInfo server ≠ [] →
      OnServerInfoOpen env w (some server) =
        (w, [Effect.getInfo server,
             Effect.addTab ("Info: " ++ server.text)
               { serverName := server.text, info := env.getInfo server }
               ":/images/serverinfo.png"])) ∧
    (env.getInfo server = [] →
      OnServerInfoOpen env w (some server) = (w, [Effect.getInfo server]) ∧
      (OnServerInfoOpen env w (some server)).2.countP Effect.isAddTab = 0 ∧
      (OnServerInfoOpen env w (some server)).2.countP Effect.isMessageBox = 0) ∧
    OnServerInfoOpen env w none = (w, []) := by
  cases hi : env.getInfo server <;>
    simp [OnServerInfoOpen, hi, Effect.isAddTab, Effect.isMessageBox]

/-- C8 at sample inputs: a server that reports one info line gets its tab, a
disconnected one (empty list) gets none. -/
theorem C8_OnServerInfoOpen_tab_iff_info_nonempty_witness :
    sampleEnv.getInfo sampleServer ≠ [] ∧
    OnServerInfoOpen sampleEnv freshWin (some sampleServer) =
      (freshWin, [Effect.getInfo sampleServer,
           Effect.addTab ("Info: " ++ sampleServer.text)
             { serverName := sampleServer.text, info := sampleEnv.getInfo sampleServer }
             ":/images/serverinfo.png"]) ∧
    failingEnv.getInfo sampleServer = [] ∧
    OnServerInfoOpen failingEnv freshWin (some sampleServer) =
      (freshWin, [Effect.getInfo sampleServer]) :=
  ⟨by decide,
   (C8_OnServerInfoOpen_tab_iff_info_nonempty sampleEnv freshWin sampleServer).2.1 (by decide),
   rfl,
   ((C8_OnServerInfoOpen_tab_iff_info_nonempty failingEnv freshWin sampleServer).2.2.1 rfl).1⟩

/-- C9: for a non-empty file name `OnImportConnectionsClick` calls
`ImportConnections` exactly once and `OnExportConnectionsClick` calls
`SaveConnectionsConfigToFile` exactly once, each on the chosen name, and each
shows exactly one message box: an information box when the call returned true,
a warning box when it returned false.  For an empty file name neither calls
the connections manager nor shows a message box. -/
theorem C9_import_export_one_call_one_box (env : Env) (w : MainWin) :
    (env.openFileName.isEmpty = false →
      (OnImportConnectionsClick env w).2.count (Effect.importConnections env.openFileName) = 1 ∧
      (OnImportConnectionsClick env w).2.countP Effect.isRegistryFileOp = 1 ∧
      (OnImportConnectionsClick env w).2.countP Effect.isMessageBox = 1 ∧
      (OnImportConnectionsClick env w).2.countP Effect.isInformation =
        (if env.importResult env.openFileName then 1 else 0) ∧
      (OnImportConnectionsClick env w).2.countP Effect.isWarning =
        (if env.importResult env.openFileName then 0 else 1)) ∧
    (env.openFileName.isEmpty = true →
      (OnImportConnectionsClick env w).2.countP Effect.isRegistryFileOp = 0 ∧
      (OnImportConnectionsClick env w).2.countP Effect.isMessageBox = 0) ∧
    (env.saveFileName.isEmpty = false →
      (OnExportConnectionsClick env w).2.count
        (Effect.saveConnectionsConfigToFile env.saveFileName) = 1 ∧
      (OnExportConnectionsClick env w).2.countP Effect.isRegistryFileOp = 1 ∧
      (OnExportConnectionsClick env w).2.countP Effect.isMessageBox = 1 ∧
      (OnExportConnectionsClick env w).2.countP Effect.isInformation =
        (if env.saveResult env.saveFileName then 1 else 0) ∧
      (OnExportConnectionsClick env w).2.countP Effect.isWarning =
        (if env.saveResult env.saveFileName then 0 else 1)) ∧
    (env.saveFileName.isEmpty = true →
      (OnExportConnectionsClick env w).2.countP Effect.isRegistryFileOp = 0 ∧
      (OnExportConnectionsClick env w).2.countP Effect.isMessageBox = 0) ∧
    (OnImportConnectionsClick env w).1 = w ∧ (OnExportConnectionsClick env w).1 = w := by
  cases ho : env.openFileName.isEmpty <;> cases hs : env.saveFileName.isEmpty <;>
    cases hi : env.importResult env.openFileName <;>
    cases hx : env.saveResult env.saveFileName <;>
    simp [OnImportConnectionsClick, OnExportConnectionsClick, ho, hs, hi, hx,
      Effect.isRegistryFileOp, Effect.isMessageBox, Effect.isInformation, Effect.isWarning]

/-- C9 at sample inputs: an import that fails shows one warning box and no
information box; an export that succeeds shows one message box. -/
theorem C9_import_export_one_call_one_box_witness :
    failingEnv.openFileName.isEmpty = false ∧
    (OnImportConnectionsClick failingEnv freshWin).2.countP Effect.isMessageBox = 1 ∧
    sampleEnv.saveFileName.isEmpty = false ∧
    (OnExportConnectionsClick sampleEnv freshWin).2.countP Effect.isMessageBox = 1 :=
  ⟨by decide,
   ((C9_import_export_one_call_one_box failingEnv freshWin).1 (by decide)).2.2.1,
   by decide,
   ((C9_import_export_one_call_one_box sampleEnv freshWin).2.2.1 (by decide)).2.2.1⟩

/-- C10: while the UI lock flag is set, `OnConnectionTreeClick` on any index
and `OnTreeViewContextMenu` at any point leave the window state (lock flag,
signal blocking, timer) unchanged; the click makes no call besides its
`qDebug()` line, so no load, no key tab and no expansion, and the context menu
handler makes no call at all, so no menu and no warning.  The click on the
invalid index behaves the same on every window state, locked or not. -/
theorem C10_locked_ui_tree_is_inert (env : Env) (w v : MainWin) (index : QModelIndex)
    (point : QPoint) (hLocked : w.m_treeViewUILocked = true) :
    (OnConnectionTreeClick env w index).1 = w ∧
    uiEffects (OnConnectionTreeClick env w index).2 = [] ∧
    (OnConnectionTreeClick env w index).2.countP Effect.isLoad = 0 ∧
    (OnConnectionTreeClick env w index).2.countP Effect.isOpenKeyTab = 0 ∧
    (OnConnectionTreeClick env w index).2.countP Effect.isSetExpanded = 0 ∧
    OnTreeViewContextMenu env w point = (w, []) ∧
    (OnConnectionTreeClick env v none).1 = v ∧
    uiEffects (OnConnectionTreeClick env v none).2 = [] ∧
    (OnConnectionTreeClick env v none).2.countP Effect.isLoad = 0 ∧
    (OnConnectionTreeClick env v none).2.countP Effect.isOpenKeyTab = 0 ∧
    (OnConnectionTreeClick env v none).2.countP Effect.isSetExpanded = 0 := by
  have hMenu : OnTreeViewContextMenu env w point = (w, []) := by
    unfold OnTreeViewContextMenu
    cases hp : point.isNull <;> simp [isUiLocked, hLocked]
  refine ⟨?_, ?_, ?_, ?_, ?_, hMenu, ?_, ?_, ?_, ?_, ?_⟩ <;>
    simp [OnConnectionTreeClick, isUiLocked, QModelIndex.isValid, hLocked, uiEffects,
      Effect.isDebug, Effect.isLoad, Effect.isOpenKeyTab, Effect.isSetExpanded]

/-- C10 at a sample input: a click on a database item of the locked window. -/
theorem C10_locked_ui_tree_is_inert_witness :
    busyWin.m_treeViewUILocked = true ∧
    (OnConnectionTreeClick sampleEnv busyWin (some (Item.db sampleDb))).1 = busyWin ∧
    OnTreeViewContextMenu sampleEnv busyWin { xp := 3, yp := 4 } = (busyWin, []) :=
  ⟨rfl,
   (C10_locked_ui_tree_is_inert sampleEnv busyWin freshWin (some (Item.db sampleDb))
      { xp := 3, yp := 4 } rfl).1,
   (C10_locked_ui_tree_is_inert sampleEnv busyWin freshWin (some (Item.db sampleDb))
      { xp := 3, yp := 4 } rfl).2.2.2.2.2.1⟩

/-- C1 as stated fails: a request at the non-null point (3, 4), on a server
item, with the UI not locked, while the cursor is at the origin of the screen.
With the server locked no warning is shown, with the server unlocked the
server menu is not executed. -/
theorem C1_counterexample_cursor_at_origin :
    (QPoint.isNull { xp := 3, yp := 4 } = false ∧
     originCursorEnv.itemAt { xp := 3, yp := 4 } = some (Item.server lockedServer) ∧
     freshWin.m_treeViewUILocked = false ∧ lockedServer.isLocked = true ∧
     (OnTreeViewContextMenu originCursorEnv freshWin { xp := 3, yp := 4 }).2.countP
        Effect.isWarning = 0) ∧
    (originCursorOkEnv.itemAt { xp := 3, yp := 4 } = some (Item.server sampleServer) ∧
     sampleServer.isLocked = false ∧
     (OnTreeViewContextMenu originCursorOkEnv freshWin { xp := 3, yp := 4 }).2.countP
        Effect.isMenu = 0) := by
  decide

/-- C1, amended: for a context-menu request at a non-null point on a server
item, with the UI not locked and the cursor position `QCursor::pos()` non-null,
a locked server gets exactly one warning and no menu, an unlocked server gets no
warning and the server menu, executed once at the cursor position; the window
state is unchanged.  When the cursor position is null the handler makes no call. -/
theorem C1_context_menu_on_server_item (env : Env) (w : MainWin) (point : QPoint)
    (server : RedisServerItem) (hPoint : point.isNull = false)
    (hItem : env.itemAt point = some (Item.server server))
    (hUnlocked : w.m_treeViewUILocked = false) :
    (env.cursorPos.isNull = false → server.isLocked = true →
      OnTreeViewContextMenu env w point =
        (w, [Effect.warning "Warning" "Performing operations. Please Keep patience."]) ∧
      (OnTreeViewContextMenu env w point).2.countP Effect.isWarning = 1 ∧
      (OnTreeViewContextMenu env w point).2.countP Effect.isMenu = 0) ∧
    (env.cursorPos.isNull = false → server.isLocked = false →
      OnTreeViewContextMenu env w point = (w, [Effect.execServerMenu env.cursorPos]) ∧
      (OnTreeViewContextMenu env w point).2.countP Effect.isWarning = 0 ∧
      (OnTreeViewContextMenu env w point).2.count (Effect.execServerMenu env.cursorPos) = 1) ∧
    (env.cursorPos.isNull = true → OnTreeViewContextMenu env w point = (w, [])) := by
  refine ⟨?_, ?_, ?_⟩
  · intro hCursor hl
    rw [contextMenu_server_unguarded env w point server hPoint hItem hCursor hUnlocked]
    simp [hl, Effect.isWarning, Effect.isMenu]
  · intro hCursor hl
    rw [contextMenu_server_unguarded env w point server hPoint hItem hCursor hUnlocked]
    simp [hl, Effect.isWarning]
  · intro hCursor
    exact contextMenu_null_cursor env w point hCursor

/-- C1, amended, at sample inputs: the locked server under the pointer gets the
warning, the unlocked one gets the server menu. -/
theorem C1_context_menu_on_server_item_witness :
    (OnTreeViewContextMenu failingEnv freshWin { xp := 3, yp := 4 }).2.countP
      Effect.isWarning = 1 ∧
    OnTreeViewContextMenu sampleEnv freshWin { xp := 3, yp := 4 } =
      (freshWin, [Effect.execServerMenu sampleEnv.cursorPos]) :=
  ⟨((C1_context_menu_on_server_item failingEnv freshWin { xp := 3, yp := 4 } lockedServer
      (by decide) rfl rfl).1 (by decide) rfl).2.1,
   ((C1_context_menu_on_server_item sampleEnv freshWin { xp := 3, yp := 4 } sampleServer
      (by decide) rfl rfl).2.1 (by decide) rfl).1⟩

/-- C2 at the failing input, a key item whose enabled flag is false: the left
click opens no tab, but the wheel click and the "Open key value in new tab"
action each call `openKeyTab` on it. -/
theorem C2_disabled_key_opened_by_wheel_click_and_menu_action :
    disabledKey.enabled = false ∧
    OnConnectionTreeClick sampleEnv freshWin (some (Item.key disabledKey)) = (freshWin, []) ∧
    OnConnectionTreeWheelClick sampleEnv freshWin (some (Item.key disabledKey)) =
      (freshWin, [Effect.openKeyTab disabledKey (some true)]) ∧
    OnKeyOpenInNewTab sampleEnv freshWin (some (Item.key disabledKey)) =
      (freshWin, [Effect.openKeyTab disabledKey (some true)]) := by
  decide

/-- C3 as stated fails: with the locked server selected, `OnEditConnection`
calls `unload` on it and opens the edit dialog, and a confirmed
`OnRemoveConnectionFromTree` calls `RemoveConnection` on it; neither shows a
warning. -/
theorem C3_counterexample_locked_server_edited_and_removed :
    lockedServer.isLocked = true ∧
    Effect.unload lockedServer ∈ (OnEditConnection sampleEnv freshWin (some lockedServer)).2 ∧
    Effect.execConnectionWindow lockedServer
      ∈ (OnEditConnection sampleEnv freshWin (some lockedServer)).2 ∧
    (OnEditConnection sampleEnv freshWin (some lockedServer)).2.countP Effect.isWarning = 0 ∧
    sampleEnv.replyYes = true ∧
    Effect.removeConnection lockedServer
      ∈ (OnRemoveConnectionFromTree sampleEnv freshWin (some lockedServer)).2 ∧
    (OnRemoveConnectionFromTree sampleEnv freshWin (some lockedServer)).2.countP
      Effect.isWarning = 0 := by
  decide

/-- C3, amended: `OnEditConnection` and `OnRemoveConnectionFromTree` do not read
the lock flag of the selected server.  For every selected server item, locked
or not, `OnEditConnection` calls `unload` on it exactly once, then runs
`UnlockUi` and then opens the edit dialog exactly once: its final state is the
state after `UnlockUi` (UI unlocked, signals unblocked, timer invalid) and its
trace is the `unload` call, the whole trace of `UnlockUi` (the
`blockSignals(false)` and `doItemsLayout()` pair when signals were blocked, the
"Keys loaded in: N ms" status and the timer invalidation when the timer was
valid) and the dialog, in this order.  A confirmed `OnRemoveConnectionFromTree`
asks the question, calls `RemoveConnection` on the server exactly once and then
runs `UnlockUi` in the same sense; a declined one only asks the question; none
of them shows a warning.  The refusal of a locked server is made by
`OnTreeViewContextMenu`: at a non-null point on a locked server item, cursor
position non-null and UI not locked, it shows the warning and executes no
menu. -/
theorem C3_edit_remove_ignore_lock_menu_refuses (env : Env) (w : MainWin)
    (server : RedisServerItem) (point : QPoint) :
    ((OnEditConnection env w (some server)).2.count (Effect.unload server) = 1 ∧
     (OnEditConnection env w (some server)).2.count (Effect.execConnectionWindow server) = 1 ∧
     (OnEditConnection env w (some server)).2.countP Effect.isWarning = 0 ∧
     (OnEditConnection env w (some server)).1 =
       { w with m_treeViewUILocked := false, signalsBlocked := false, timerValid := false } ∧
     (OnEditConnection env w (some server)).1 = (UnlockUi env w).1 ∧
     (OnEditConnection env w (some server)).2 =
       Effect.unload server ::
         ((UnlockUi env w).2 ++ [Effect.execConnectionWindow server]) ∧
     (OnEditConnection env w (some server)).2 =
       [Effect.unload server, Effect.debug "ui unlocked"] ++
       (if w.signalsBlocked then [Effect.blockSignals false, Effect.doItemsLayout] else []) ++
       (if w.timerValid then
         [Effect.showMessage ("Keys loaded in: " ++ toString env.elapsed ++ " ms"),
          Effect.timerInvalidate]
        else []) ++
       [Effect.execConnectionWindow server]) ∧
    (env.replyYes = true →
     (OnRemoveConnectionFromTree env w (some server)).2.count
        (Effect.removeConnection server) = 1 ∧
     (OnRemoveConnectionFromTree env w (some server)).2.countP Effect.isWarning = 0 ∧
     (OnRemoveConnectionFromTree env w (some server)).1 =
       { w with m_treeViewUILocked := false, signalsBlocked := false, timerValid := false } ∧
     (OnRemoveConnectionFromTree env w (some server)).1 = (UnlockUi env w).1 ∧
     (OnRemoveConnectionFromTree env w (some server)).2 =
       Effect.question "Confirm action" "Do you really want delete connection?" ::
         Effect.removeConnection server :: (UnlockUi env w).2 ∧
     (OnRemoveConnectionFromTree env w (some server)).2 =
       [Effect.question "Confirm action" "Do you really want delete connection?",
        Effect.removeConnection server, Effect.debug "ui unlocked"] ++
       (if w.signalsBlocked then [Effect.blockSignals false, Effect.doItemsLayout] else []) ++
       (if w.timerValid then
         [Effect.showMessage ("Keys loaded in: " ++ toString env.elapsed ++ " ms"),
          Effect.timerInvalidate]
        else [])) ∧
    (env.replyYes = false →
     OnRemoveConnectionFromTree env w (some server) =
       (w, [Effect.question "Confirm action" "Do you really want delete connection?"])) ∧
    (point.isNull = false → env.itemAt point = some (Item.server server) →
     env.cursorPos.isNull = false → w.m_treeViewUILocked = false → server.isLocked = true →
     OnTreeViewContextMenu env w point =
       (w, [Effect.warning "Warning" "Performing operations. Please Keep patience."])) := by
  refine ⟨?_, ?_, ?_, ?_⟩
  · obtain ⟨l, b, t, c, f⟩ := w
    cases b <;> cases t <;> simp [OnEditConnection, UnlockUi, Effect.isWarning]
  · intro hy
    obtain ⟨l, b, t, c, f⟩ := w
    cases b <;> cases t <;> simp [OnRemoveConnectionFromTree, UnlockUi, Effect.isWarning, hy]
  · intro hn
    simp [OnRemoveConnectionFromTree, hn]
  · intro hPoint hItem hCursor hUnlocked hl
    rw [contextMenu_server_unguarded env w point server hPoint hItem hCursor hUnlocked]
    simp [hl]

/-- C3, amended, at sample inputs: on the window in the middle of a key load
the locked server is removed after a confirmation, with the full `UnlockUi`
sequence after the removal; it is kept after a refusal; editing it unloads it,
refreshes the layout, reports the timing and opens the dialog; and the context
menu refuses it. -/
theorem C3_edit_remove_ignore_lock_menu_refuses_witness :
    (OnRemoveConnectionFromTree sampleEnv busyWin (some lockedServer)).2.count
      (Effect.removeConnection lockedServer) = 1 ∧
    OnRemoveConnectionFromTree decliningEnv busyWin (some lockedServer) =
      (busyWin, [Effect.question "Confirm action" "Do you really want delete connection?"]) ∧
    OnTreeViewContextMenu failingEnv freshWin { xp := 3, yp := 4 } =
      (freshWin, [Effect.warning "Warning" "Performing operations. Please Keep patience."]) ∧
    (OnRemoveConnectionFromTree sampleEnv busyWin (some lockedServer)).2 =
      [Effect.question "Confirm action" "Do you really want delete connection?",
       Effect.removeConnection lockedServer, Effect.debug "ui unlocked"] ++
      (if busyWin.signalsBlocked then [Effect.blockSignals false, Effect.doItemsLayout]
       else []) ++
      (if busyWin.timerValid then
        [Effect.showMessage ("Keys loaded in: " ++ toString sampleEnv.elapsed ++ " ms"),
         Effect.timerInvalidate]
       else []) ∧
    (OnEditConnection sampleEnv busyWin (some lockedServer)).2 =
      [Effect.unload lockedServer, Effect.debug "ui unlocked"] ++
      (if busyWin.signalsBlocked then [Effect.blockSignals false, Effect.doItemsLayout]
       else []) ++
      (if busyWin.timerValid then
        [Effect.showMessage ("Keys loaded in: " ++ toString sampleEnv.elapsed ++ " ms"),
         Effect.timerInvalidate]
       else []) ++
      [Effect.execConnectionWindow lockedServer] :=
  ⟨((C3_edit_remove_ignore_lock_menu_refuses sampleEnv busyWin lockedServer
      { xp := 3, yp := 4 }).2.1 rfl).1,
   (C3_edit_remove_ignore_lock_menu_refuses decliningEnv busyWin lockedServer
      { xp := 3, yp := 4 }).2.2.1 rfl,
   (C3_edit_remove_ignore_lock_menu_refuses failingEnv freshWin lockedServer
      { xp := 3, yp := 4 }).2.2.2 (by decide) rfl (by decide) rfl rfl,
   ((C3_edit_remove_ignore_lock_menu_refuses sampleEnv busyWin lockedServer
      { xp := 3, yp := 4 }).2.1 rfl).2.2.2.2.2,
   (C3_edit_remove_ignore_lock_menu_refuses sampleEnv busyWin lockedServer
      { xp := 3, yp := 4 }).1.2.2.2.2.2.2⟩

/-- C4 at the failing input, an unlocked window with a selected server whose
`reload()` throws `std::bad_cast`: the handler shows the error warning and
returns with the UI lock flag set.  With no server selected nothing happens. -/
theorem C4_reload_bad_cast_leaves_ui_locked :
    freshWin.m_treeViewUILocked = false ∧
    failingEnv.reloadThrowsBadCast sampleServer = true ∧
    OnReloadServerInTree failingEnv freshWin (some sampleServer) =
      ({ freshWin with m_treeViewUILocked := true },
        [Effect.debug "ui locked", Effect.reload sampleServer,
         Effect.warning "Error" "Error occurred on reloading connection"]) ∧
    (OnReloadServerInTree failingEnv freshWin (some sampleServer)).1.m_treeViewUILocked
      = true ∧
    OnReloadServerInTree failingEnv freshWin none = (freshWin, []) := by
  decide

end RDM
